import Mathlib

/-!
Verification of the AmapMCPServer repository: two MCP adapter servers
(the coordinate server in src/amap-coordinate-server/src/index.ts and the
route server whose index.ts is embedded in the coordinate README) that map
tool invocations to AMap REST calls.
-/

/- A JavaScript runtime value, as far as the two servers inspect values:
undefined, null, booleans, numbers, strings, arrays and plain objects
(association lists of properties). Mutual inductives keep all recursion
structural. -/
mutual
inductive JsValue where
  | undefined : JsValue
  | null : JsValue
  | bool (b : Bool) : JsValue
  | num (n : Int) : JsValue
  | str (s : String) : JsValue
  | arr (elems : JsList) : JsValue
  | obj (props : JsProps) : JsValue

inductive JsList where
  | nil : JsList
  | cons (hd : JsValue) (tl : JsList) : JsList

inductive JsProps where
  | nil : JsProps
  | cons (k : String) (v : JsValue) (tl : JsProps) : JsProps
end

/-- Build a JsProps from a plain list, for readable object literals. -/
def jsPropsOfList : List (String × JsValue) → JsProps
  | [] => .nil
  | (k, v) :: rest => .cons k v (jsPropsOfList rest)

/-- Object literal helper. -/
def JsValue.objL (l : List (String × JsValue)) : JsValue :=
  .obj (jsPropsOfList l)

/-- The JavaScript typeof operator on our value model. -/
def typeofJs : JsValue → String
  | .undefined => "undefined"
  | .null => "object"
  | .bool _ => "boolean"
  | .num _ => "number"
  | .str _ => "string"
  | .arr _ => "object"
  | .obj _ => "object"

def isUndefinedJs : JsValue → Bool
  | .undefined => true
  | _ => false

/-- Key lookup in an object property list (first match wins). -/
def JsProps.get : JsProps → String → Option JsValue
  | .nil, _ => none
  | .cons k v tl, key => if k = key then some v else tl.get key

/-- The JavaScript in operator: property presence on an object.  On any
non-object receiver the servers either guard first (coordinate validator)
or use optional chaining (route server), so absence is the right result. -/
def hasProp (v : JsValue) (key : String) : Bool :=
  match v with
  | .obj ps => (ps.get key).isSome
  | _ => false

/-- Property access args.k, yielding undefined when absent or when the
receiver is not an object (optional-chaining behaviour of the route
server accesses). -/
def getProp (v : JsValue) (key : String) : JsValue :=
  match v with
  | .obj ps => (ps.get key).getD .undefined
  | _ => .undefined

/-- The shared validator of the coordinate server (index.ts lines 72-94).
It first requires a non-null object (typeof args must be object and args
not null; an array reaches the key chain but holds none of the keys, so
it falls through to false exactly as in the source), then branches on the
first present discriminator key in the fixed order locations, keywords,
location, polygon, id, requiring a string value there (and, in the
locations branch only, that coordsys and output are each undefined or
strings). -/
def isValidSearchArgs (args : JsValue) : Bool :=
  match args with
  | .obj _ =>
    if hasProp args "locations" then
      typeofJs (getProp args "locations") == "string" &&
      (isUndefinedJs (getProp args "coordsys") || typeofJs (getProp args "coordsys") == "string") &&
      (isUndefinedJs (getProp args "output") || typeofJs (getProp args "output") == "string")
    else if hasProp args "keywords" then
      typeofJs (getProp args "keywords") == "string"
    else if hasProp args "location" then
      typeofJs (getProp args "location") == "string"
    else if hasProp args "polygon" then
      typeofJs (getProp args "polygon") == "string"
    else if hasProp args "id" then
      typeofJs (getProp args "id") == "string"
    else false
  | _ => false

/-- JSON string quoting as JSON.stringify performs it for the characters
that can occur in this development (quote, backslash and the common
control characters). -/
def jsonEscapeChar (c : Char) : String :=
  if c = '"' then "\\\""
  else if c = '\\' then "\\\\"
  else if c = '\n' then "\\n"
  else if c = '\r' then "\\r"
  else if c = '\t' then "\\t"
  else String.singleton c

def jsonQuote (s : String) : String :=
  "\"" ++ String.join (s.toList.map jsonEscapeChar) ++ "\""

/- Compact JSON.stringify(value): used by the route server
(text: JSON.stringify(data)).  Object properties with undefined values are
skipped and an undefined array element renders as null, as in JavaScript;
a top-level undefined never arises from a parsed response body. -/
mutual
def jsonStringify : JsValue → String
  | .undefined => "null"
  | .null => "null"
  | .bool b => if b then "true" else "false"
  | .num n => toString n
  | .str s => jsonQuote s
  | .arr l => "[" ++ String.intercalate "," (jsonStringifyArr l) ++ "]"
  | .obj ps => "\x7b" ++ String.intercalate "," (jsonStringifyProps ps) ++ "\x7d"

def jsonStringifyArr : JsList → List String
  | .nil => []
  | .cons v rest => jsonStringify v :: jsonStringifyArr rest

def jsonStringifyProps : JsProps → List String
  | .nil => []
  | .cons k v rest =>
    if isUndefinedJs v then jsonStringifyProps rest
    else (jsonQuote k ++ ":" ++ jsonStringify v) :: jsonStringifyProps rest
end

/- Pretty JSON.stringify(value, null, 2): used by the coordinate server
(text: JSON.stringify(response.data, null, 2)).  ind is the indentation
accumulated at the current depth. -/
mutual
def jsonStringifyP (ind : String) : JsValue → String
  | .undefined => "null"
  | .null => "null"
  | .bool b => if b then "true" else "false"
  | .num n => toString n
  | .str s => jsonQuote s
  | .arr l =>
    match jsonStringifyPArr (ind ++ "  ") l with
    | [] => "[]"
    | items => "[\n" ++ String.intercalate ",\n" items ++ "\n" ++ ind ++ "]"
  | .obj ps =>
    match jsonStringifyPProps (ind ++ "  ") ps with
    | [] => "\x7b\x7d"
    | items => "\x7b\n" ++ String.intercalate ",\n" items ++ "\n" ++ ind ++ "\x7d"

def jsonStringifyPArr (ind : String) : JsList → List String
  | .nil => []
  | .cons v rest => (ind ++ jsonStringifyP ind v) :: jsonStringifyPArr ind rest

def jsonStringifyPProps (ind : String) : JsProps → List String
  | .nil => []
  | .cons k v rest =>
    if isUndefinedJs v then jsonStringifyPProps ind rest
    else (ind ++ jsonQuote k ++ ": " ++ jsonStringifyP ind v) :: jsonStringifyPProps ind rest
end

/-- JSON.stringify(value, null, 2) at top level. -/
def jsonStringifyPretty (v : JsValue) : String :=
  jsonStringifyP "" v

def isUndefinedOrNullJs : JsValue → Bool
  | .undefined => true
  | .null => true
  | _ => false

/- The JavaScript String() conversion applied by the route server to every
argument (String(request.params.arguments?.origin) and friends). -/
mutual
def jsToString : JsValue → String
  | .undefined => "undefined"
  | .null => "null"
  | .bool b => if b then "true" else "false"
  | .num n => toString n
  | .str s => s
  | .arr l => String.intercalate "," (jsArrElems l)
  | .obj _ => "[object Object]"

def jsArrElems : JsList → List String
  | .nil => []
  | .cons v rest =>
    (if isUndefinedOrNullJs v then "" else jsToString v) :: jsArrElems rest
end


/-- Outcome of the single upstream HTTP round trip a branch performs: the
provider returned a parsed JSON body, or the transport failed with an
error whose message is recorded (axios rejection, fetch rejection or a
response.json() failure). -/
inductive UpstreamResult where
  | ok (body : JsValue) : UpstreamResult
  | err (message : String) : UpstreamResult

/-- One entry of a ToolResponse content array; type is always text. -/
structure ContentItem where
  type : String
  text : String
deriving DecidableEq

/-- The MCP tool-response envelope as both servers build it.  isError is
an Option because the success returns of both servers carry no isError
field at all (none), while the coordinate catch blocks set it (some
true). -/
structure ToolResponse where
  content : List ContentItem
  isError : Option Bool
deriving DecidableEq

/-- What the coordinate CallTool handler does with an invocation: throw
McpError(ErrorCode.InvalidParams, message), throw
McpError(ErrorCode.MethodNotFound, message) from the default case, or
return a ToolResponse. -/
inductive CoordOutcome where
  | invalidParams (message : String) : CoordOutcome
  | methodNotFound (message : String) : CoordOutcome
  | response (r : ToolResponse) : CoordOutcome
deriving DecidableEq

/-- One axios.get request of the coordinate server: base URL plus the
params object. -/
structure CoordRequest where
  url : String
  params : List (String × JsValue)

/-- axios drops params whose value is undefined, so they never appear in
the outgoing query string. -/
def axiosParams (ps : List (String × JsValue)) : List (String × JsValue) :=
  ps.filter fun p => !(isUndefinedJs p.2)

/-- The shared shape of each coordinate-server case body: try axios.get,
on success return content with JSON.stringify(response.data, null, 2) and
no isError field, on catch return AMap API error text with isError true.
The issued request is recorded in the second component. -/
def coordBranch (url : String) (ps : List (String × JsValue)) (up : UpstreamResult) :
    CoordOutcome × List CoordRequest :=
  let req : CoordRequest := ⟨url, axiosParams ps⟩
  let outcome :=
    match up with
    | .ok body =>
      CoordOutcome.response ⟨[⟨"text", jsonStringifyPretty body⟩], none⟩
    | .err message =>
      CoordOutcome.response ⟨[⟨"text", "AMap API error: " ++ message⟩], some true⟩
  (outcome, [req])

/-- The coordinate-server CallTool handler (index.ts lines 304-573):
switch on the tool name; every case guards with the shared
isValidSearchArgs and throws InvalidParams on failure, otherwise issues
its one axios.get; the default case throws MethodNotFound.  apiKey is the
API_KEY read at startup; up is the behaviour of the (at most one)
upstream call of this invocation. -/
def coordDispatch (apiKey : String) (up : UpstreamResult) (name : String) (args : JsValue) :
    CoordOutcome × List CoordRequest :=
  if name = "coordinate_convert" then
    if isValidSearchArgs args then
      coordBranch "https://restapi.amap.com/v3/assistant/coordinate/convert"
        [("locations", getProp args "locations"), ("coordsys", getProp args "coordsys"),
         ("output", getProp args "output"), ("key", .str apiKey)] up
    else (.invalidParams "Invalid arguments", [])
  else if name = "keyword_search" then
    if isValidSearchArgs args then
      coordBranch "https://restapi.amap.com/v3/place/text"
        [("key", .str apiKey), ("keywords", getProp args "keywords"),
         ("types", getProp args "types"), ("city", getProp args "city"),
         ("citylimit", getProp args "citylimit"), ("children", getProp args "children"),
         ("offset", getProp args "offset"), ("page", getProp args "page"),
         ("extensions", getProp args "extensions")] up
    else (.invalidParams "Invalid arguments", [])
  else if name = "around_search" then
    if isValidSearchArgs args then
      coordBranch "https://restapi.amap.com/v3/place/around"
        [("key", .str apiKey), ("location", getProp args "location"),
         ("keywords", getProp args "keywords"), ("types", getProp args "types"),
         ("city", getProp args "city"), ("radius", getProp args "radius"),
         ("sortrule", getProp args "sortrule"), ("offset", getProp args "offset"),
         ("page", getProp args "page"), ("extensions", getProp args "extensions")] up
    else (.invalidParams "Invalid arguments", [])
  else if name = "polygon_search" then
    if isValidSearchArgs args then
      coordBranch "https://restapi.amap.com/v3/place/polygon"
        [("key", .str apiKey), ("polygon", getProp args "polygon"),
         ("keywords", getProp args "keywords"), ("types", getProp args "types"),
         ("offset", getProp args "offset"), ("page", getProp args "page"),
         ("extensions", getProp args "extensions")] up
    else (.invalidParams "Invalid arguments", [])
  else if name = "id_search" then
    if isValidSearchArgs args then
      coordBranch "https://restapi.amap.com/v3/place/detail"
        [("key", .str apiKey), ("id", getProp args "id")] up
    else (.invalidParams "Invalid arguments", [])
  else if name = "aoi_boundary_query" then
    if isValidSearchArgs args then
      coordBranch "https://restapi.amap.com/v5/aoi/polyline"
        [("key", .str apiKey), ("id", getProp args "id")] up
    else (.invalidParams "Invalid arguments", [])
  else (.methodNotFound ("Unknown tool: " ++ name), [])

/-- The API key of the route server: a hardcoded literal inside the
CallTool handler (const apiKey = ...), not read from the environment. -/
def routeApiKey : String := "ae4775b98c50d997cab4bcd6c769bf9b"

/-- What the route CallTool handler does with an invocation: throw a
plain Error (the required-argument throws, the default-case throw, and
any rejection of fetch or response.json() that no try/catch intercepts),
or return a ToolResponse. -/
inductive RouteOutcome where
  | thrown (message : String) : RouteOutcome
  | response (r : ToolResponse) : RouteOutcome
deriving DecidableEq

/-- The shared shape of each route-server case body after the required
check: fetch(url), data = await response.json(), return content with the
compact JSON.stringify(data) and no isError field.  There is no try/catch,
so an upstream failure is a rejection that escapes the handler as a
thrown error.  The fetched URL is recorded in the second component. -/
def routeBranch (url : String) (up : UpstreamResult) : RouteOutcome × List String :=
  let outcome :=
    match up with
    | .ok body => RouteOutcome.response ⟨[⟨"text", jsonStringify body⟩], none⟩
    | .err message => RouteOutcome.thrown message
  (outcome, [url])

/-- The route-server CallTool handler (embedded index.ts, switch on
request.params.name): every case converts each argument with String()
via optional chaining, rejects falsy (empty-string) results with a thrown
required-error, then issues one fetch to a template-literal URL ending in
the hardcoded key; the default case throws Unknown tool. -/
def routeDispatch (up : UpstreamResult) (name : String) (args : JsValue) :
    RouteOutcome × List String :=
  if name = "walking_route" then
    let origin := jsToString (getProp args "origin")
    let destination := jsToString (getProp args "destination")
    if origin = "" || destination = "" then
      (.thrown "Origin and destination are required", [])
    else
      routeBranch ("https://restapi.amap.com/v3/direction/walking?origin=" ++ origin ++
        "&destination=" ++ destination ++ "&key=" ++ routeApiKey) up
  else if name = "transit_route" then
    let origin := jsToString (getProp args "origin")
    let destination := jsToString (getProp args "destination")
    let city := jsToString (getProp args "city")
    if origin = "" || destination = "" || city = "" then
      (.thrown "Origin, destination and city are required", [])
    else
      routeBranch ("https://restapi.amap.com/v3/direction/transit/integrated?origin=" ++ origin ++
        "&destination=" ++ destination ++ "&city=" ++ city ++ "&key=" ++ routeApiKey) up
  else if name = "driving_route" then
    let origin := jsToString (getProp args "origin")
    let destination := jsToString (getProp args "destination")
    if origin = "" || destination = "" then
      (.thrown "Origin and destination are required", [])
    else
      routeBranch ("https://restapi.amap.com/v3/direction/driving?origin=" ++ origin ++
        "&destination=" ++ destination ++ "&key=" ++ routeApiKey) up
  else if name = "bicycling_route" then
    let origin := jsToString (getProp args "origin")
    let destination := jsToString (getProp args "destination")
    if origin = "" || destination = "" then
      (.thrown "Origin and destination are required", [])
    else
      routeBranch ("https://restapi.amap.com/v4/direction/bicycling?origin=" ++ origin ++
        "&destination=" ++ destination ++ "&key=" ++ routeApiKey) up
  else if name = "distance" then
    let origins := jsToString (getProp args "origins")
    let destination := jsToString (getProp args "destination")
    if origins = "" || destination = "" then
      (.thrown "Origins and destination are required", [])
    else
      routeBranch ("https://restapi.amap.com/v3/distance?origins=" ++ origins ++
        "&destination=" ++ destination ++ "&key=" ++ routeApiKey) up
  else (.thrown "Unknown tool", [])

/-- Whether a route-server invocation passes the required-argument guard
of its case: the negation of exactly the falsy check each case performs
on its String()-coerced arguments (an invocation of an unknown tool never
reaches a guard). -/
def routeRequiredPresent (name : String) (args : JsValue) : Bool :=
  if name = "walking_route" then
    !(jsToString (getProp args "origin") = "" || jsToString (getProp args "destination") = "")
  else if name = "transit_route" then
    !(jsToString (getProp args "origin") = "" || jsToString (getProp args "destination") = "" ||
      jsToString (getProp args "city") = "")
  else if name = "driving_route" then
    !(jsToString (getProp args "origin") = "" || jsToString (getProp args "destination") = "")
  else if name = "bicycling_route" then
    !(jsToString (getProp args "origin") = "" || jsToString (getProp args "destination") = "")
  else if name = "distance" then
    !(jsToString (getProp args "origins") = "" || jsToString (getProp args "destination") = "")
  else false

/-- The template-literal URL each route-server case fetches, as a
function of the invocation. -/
def routeUrlOf (name : String) (args : JsValue) : String :=
  if name = "walking_route" then
    "https://restapi.amap.com/v3/direction/walking?origin=" ++
      jsToString (getProp args "origin") ++ "&destination=" ++
      jsToString (getProp args "destination") ++ "&key=" ++ routeApiKey
  else if name = "transit_route" then
    "https://restapi.amap.com/v3/direction/transit/integrated?origin=" ++
      jsToString (getProp args "origin") ++ "&destination=" ++
      jsToString (getProp args "destination") ++ "&city=" ++
      jsToString (getProp args "city") ++ "&key=" ++ routeApiKey
  else if name = "driving_route" then
    "https://restapi.amap.com/v3/direction/driving?origin=" ++
      jsToString (getProp args "origin") ++ "&destination=" ++
      jsToString (getProp args "destination") ++ "&key=" ++ routeApiKey
  else if name = "bicycling_route" then
    "https://restapi.amap.com/v4/direction/bicycling?origin=" ++
      jsToString (getProp args "origin") ++ "&destination=" ++
      jsToString (getProp args "destination") ++ "&key=" ++ routeApiKey
  else if name = "distance" then
    "https://restapi.amap.com/v3/distance?origins=" ++
      jsToString (getProp args "origins") ++ "&destination=" ++
      jsToString (getProp args "destination") ++ "&key=" ++ routeApiKey
  else ""


/-- One property of an inputSchema: its declared JSON type, description
and optional enum constraint. -/
structure PropSpec where
  type : String
  description : String
  enumVals : Option (List String)
deriving DecidableEq

/-- One tool descriptor as listed by a ListTools handler: name,
description and the inputSchema (always of type object, flattened here to
its ordered properties and its required list). -/
structure ToolDescriptor where
  name : String
  description : String
  properties : List (String × PropSpec)
  required : List String
deriving DecidableEq

/-- The coordinate-server tool catalog (ListTools handler, index.ts lines
123-302). -/
def coordTools : List ToolDescriptor := [
  ⟨"coordinate_convert", "Convert coordinates using AMap API",
    [("locations", ⟨"string",
        "Coordinates to convert (longitude,latitude|longitude,latitude)", none⟩),
     ("coordsys", ⟨"string", "Original coordinate system (gps, mapbar, baidu, autonavi)",
        some ["gps", "mapbar", "baidu", "autonavi"]⟩),
     ("output", ⟨"string", "Output format (JSON, XML)", some ["JSON", "XML"]⟩)],
    ["locations"]⟩,
  ⟨"keyword_search", "Search for places by keyword using AMap API",
    [("keywords", ⟨"string", "Keywords for the search", none⟩),
     ("types", ⟨"string", "POI types", none⟩),
     ("city", ⟨"string", "City to search in", none⟩),
     ("citylimit", ⟨"boolean", "Limit results to the specified city", none⟩),
     ("children", ⟨"number", "Whether to show child POIs", none⟩),
     ("offset", ⟨"number", "Number of results per page", none⟩),
     ("page", ⟨"number", "Page number", none⟩),
     ("extensions", ⟨"string", "Return extensions", none⟩)],
    ["keywords"]⟩,
  ⟨"around_search", "Search for places around a location using AMap API",
    [("location", ⟨"string", "Location to search around (longitude,latitude)", none⟩),
     ("keywords", ⟨"string", "Keywords for the search", none⟩),
     ("types", ⟨"string", "POI types", none⟩),
     ("city", ⟨"string", "City to search in", none⟩),
     ("radius", ⟨"number", "Search radius", none⟩),
     ("sortrule", ⟨"string", "Sort rule", none⟩),
     ("offset", ⟨"number", "Number of results per page", none⟩),
     ("page", ⟨"number", "Page number", none⟩),
     ("extensions", ⟨"string", "Return extensions", none⟩)],
    ["location"]⟩,
  ⟨"polygon_search", "Search for places within a polygon using AMap API",
    [("polygon", ⟨"string",
        "Polygon to search within (longitude,latitude|longitude,latitude|...)", none⟩),
     ("keywords", ⟨"string", "Keywords for the search", none⟩),
     ("types", ⟨"string", "POI types", none⟩),
     ("offset", ⟨"number", "Number of results per page", none⟩),
     ("page", ⟨"number", "Page number", none⟩),
     ("extensions", ⟨"string", "Return extensions", none⟩)],
    ["polygon"]⟩,
  ⟨"id_search", "Search for a place by ID using AMap API",
    [("id", ⟨"string", "ID of the place to search for", none⟩)],
    ["id"]⟩,
  ⟨"aoi_boundary_query", "Query AOI boundary using AMap API",
    [("id", ⟨"string", "ID of the AOI to query", none⟩)],
    ["id"]⟩]

/-- The route-server tool catalog (ListTools handler of the embedded
index.ts). -/
def routeTools : List ToolDescriptor := [
  ⟨"walking_route", "Get walking route",
    [("origin", ⟨"string", "Origin longitude and latitude", none⟩),
     ("destination", ⟨"string", "Destination longitude and latitude", none⟩)],
    ["origin", "destination"]⟩,
  ⟨"transit_route", "Get transit route",
    [("origin", ⟨"string", "Origin longitude and latitude", none⟩),
     ("destination", ⟨"string", "Destination longitude and latitude", none⟩),
     ("city", ⟨"string", "City name", none⟩)],
    ["origin", "destination", "city"]⟩,
  ⟨"driving_route", "Get driving route",
    [("origin", ⟨"string", "Origin longitude and latitude", none⟩),
     ("destination", ⟨"string", "Destination longitude and latitude", none⟩)],
    ["origin", "destination"]⟩,
  ⟨"bicycling_route", "Get bicycling route",
    [("origin", ⟨"string", "Origin longitude and latitude", none⟩),
     ("destination", ⟨"string", "Destination longitude and latitude", none⟩)],
    ["origin", "destination"]⟩,
  ⟨"distance", "Get distance between two points",
    [("origins", ⟨"string", "Origin longitude and latitude, separated by |", none⟩),
     ("destination", ⟨"string", "Destination longitude and latitude", none⟩)],
    ["origins", "destination"]⟩]

/-- The ListTools operation of the coordinate server: a handler that
ignores its request and returns the static catalog. -/
def coordListTools (_ : Unit) : List ToolDescriptor := coordTools

/-- The ListTools operation of the route server. -/
def routeListTools (_ : Unit) : List ToolDescriptor := routeTools

/-- The tool names the coordinate CallTool switch recognises, in switch
order. -/
def coordToolNames : List String :=
  ["coordinate_convert", "keyword_search", "around_search",
   "polygon_search", "id_search", "aoi_boundary_query"]

/-- The tool names the route CallTool switch recognises, in switch
order. -/
def routeToolNames : List String :=
  ["walking_route", "transit_route", "driving_route", "bicycling_route", "distance"]

/-- The discriminator keys of isValidSearchArgs, in the order the if/else
chain tests them. -/
def coordDiscriminators : List String :=
  ["locations", "keywords", "location", "polygon", "id"]

/-- The one required parameter of each coordinate-server tool, per its
catalog entry (id_search and aoi_boundary_query both require id). -/
def coordRequiredKey (t : String) : String :=
  if t = "coordinate_convert" then "locations"
  else if t = "keyword_search" then "keywords"
  else if t = "around_search" then "location"
  else if t = "polygon_search" then "polygon"
  else "id"

/-- Modelled from the spec: the required columns of the section 6
endpoint table, for comparison with the catalogs the code declares. -/
def specRequiredParams : List (String × List String) := [
  ("coordinate_convert", ["locations"]),
  ("keyword_search", ["keywords"]),
  ("around_search", ["location"]),
  ("polygon_search", ["polygon"]),
  ("id_search", ["id"]),
  ("aoi_boundary_query", ["id"]),
  ("walking_route", ["origin", "destination"]),
  ("transit_route", ["origin", "destination", "city"]),
  ("driving_route", ["origin", "destination"]),
  ("bicycling_route", ["origin", "destination"]),
  ("distance", ["origins", "destination"])]

/-- Coordinate-server startup (index.ts lines 12-16): API_KEY is read
from the AMAP_API_KEY environment variable and an Error is thrown before
any handler is installed when it is absent or empty (the falsy check
!API_KEY); the uncaught throw terminates the process with a non-zero
status. -/
def coordStartup (amapApiKeyEnv : Option String) : Except String String :=
  match amapApiKeyEnv with
  | none => .error "AMAP_API_KEY environment variable is required"
  | some k =>
    if k = "" then .error "AMAP_API_KEY environment variable is required"
    else .ok k

/-- Route-server startup (embedded index.ts, main): no credential check
of any kind is performed, the process starts regardless of the
environment. -/
def routeStartup (_ : Option String) : Except String Unit :=
  .ok ()

/-- Exit code of the SIGINT handler the coordinate server installs
(process.on SIGINT: close the server, then process.exit(0)). -/
def coordSigintExitCode : Option Nat := some 0

/-- The route server installs no SIGINT handler at all. -/
def routeSigintExitCode : Option Nat := none

/-- Claim C1 (code bug): at the failing inputs the claim is violated.
Invoking coordinate_convert with only an id argument (locations, its
required parameter, absent) passes the shared validator, so no
InvalidParams error is thrown and an upstream request to the
coordinate-convert endpoint is issued whose params lack locations; and
invoking walking_route with origin absent issues the upstream GET with
origin=undefined instead of failing.  Both contradict the claim that a
missing required parameter always fails validation before any network
I/O. -/
theorem c1_missing_required_reaches_network :
    (coordDispatch "k" (UpstreamResult.ok (JsValue.objL [])) "coordinate_convert"
        (JsValue.objL [("id", JsValue.str "x")])).1 ≠
      CoordOutcome.invalidParams "Invalid arguments" ∧
    ((coordDispatch "k" (UpstreamResult.ok (JsValue.objL [])) "coordinate_convert"
        (JsValue.objL [("id", JsValue.str "x")])).2.map fun q => q.url) =
      ["https://restapi.amap.com/v3/assistant/coordinate/convert"] ∧
    ((coordDispatch "k" (UpstreamResult.ok (JsValue.objL [])) "coordinate_convert"
        (JsValue.objL [("id", JsValue.str "x")])).2.map
      fun q => (q.params.lookup "locations").isNone) = [true] ∧
    (routeDispatch (UpstreamResult.ok (JsValue.objL [])) "walking_route"
        (JsValue.objL [("destination", JsValue.str "116.5,40.0")])).2 =
      ["https://restapi.amap.com/v3/direction/walking?origin=undefined&destination=116.5,40.0&key=ae4775b98c50d997cab4bcd6c769bf9b"] := by
  exact ⟨by decide, rfl, rfl, rfl⟩

/-- Claim C6: both ListTools handlers are deterministic constants, and
the required-parameter sets of every descriptor in the two catalogs match
exactly the required columns of the section 6 endpoint table. -/
theorem c6_list_tools_required :
    (∀ u v : Unit, coordListTools u = coordListTools v) ∧
    (∀ u v : Unit, routeListTools u = routeListTools v) ∧
    ((coordListTools () ++ routeListTools ()).map fun t => (t.name, t.required)) =
      specRequiredParams :=
  ⟨fun _ _ => rfl, fun _ _ => rfl, rfl⟩

/-- Claim C7 (code bug): the route server carries its key as a hardcoded
source literal.  routeApiKey is the literal, a walking_route request URL
embeds that literal as its key query parameter with no environment input
anywhere in the handler, while the coordinate server does pass its
startup-supplied key (here ENVKEY) as the key param of every request. -/
theorem c7_hardcoded_key :
    routeApiKey = "ae4775b98c50d997cab4bcd6c769bf9b" ∧
    (routeDispatch (UpstreamResult.ok (JsValue.objL [])) "walking_route"
        (JsValue.objL [("origin", JsValue.str "116.4,39.9"),
                       ("destination", JsValue.str "116.5,40.0")])).2 =
      ["https://restapi.amap.com/v3/direction/walking?origin=116.4,39.9&destination=116.5,40.0&key=ae4775b98c50d997cab4bcd6c769bf9b"] ∧
    ((coordDispatch "ENVKEY" (UpstreamResult.ok (JsValue.objL [])) "id_search"
        (JsValue.objL [("id", JsValue.str "B0FFFAEC0B")])).2.map
      fun q => (q.params.lookup "key").map jsToString) = [some "ENVKEY"] :=
  ⟨rfl, rfl, rfl⟩

/-- Claim C8 counterexample: the route server starts successfully with
the AMAP_API_KEY environment credential entirely absent (its startup
performs no credential check) and installs no SIGINT handler, so the
claimed terminate-on-missing-credential and clean exit-0 shutdown do not
hold of it. -/
theorem c8_startup_shutdown_cex :
    routeStartup none = Except.ok () ∧ routeSigintExitCode = none :=
  ⟨rfl, rfl⟩

/-- Claim C8 as amended: in the coordinate server a missing or empty
AMAP_API_KEY aborts startup with the diagnostic error (an uncaught throw,
hence a non-zero exit before any request is served), any other value is
accepted, and the installed SIGINT handler exits with status 0; the route
server checks no credential and installs no SIGINT handler. -/
theorem c8_startup_shutdown_amended (k : String) (hk : k ≠ "") :
    coordStartup none = Except.error "AMAP_API_KEY environment variable is required" ∧
    coordStartup (some "") = Except.error "AMAP_API_KEY environment variable is required" ∧
    coordStartup (some k) = Except.ok k ∧
    coordSigintExitCode = some 0 ∧
    routeStartup none = Except.ok () ∧
    routeSigintExitCode = none := by
  refine ⟨rfl, rfl, ?_, rfl, rfl, rfl⟩
  simp [coordStartup, hk]

/-- Witness for the amended claim C8 at the concrete key abc. -/
theorem c8_startup_shutdown_amended_witness :
    coordStartup none = Except.error "AMAP_API_KEY environment variable is required" ∧
    coordStartup (some "") = Except.error "AMAP_API_KEY environment variable is required" ∧
    coordStartup (some "abc") = Except.ok "abc" ∧
    coordSigintExitCode = some 0 ∧
    routeStartup none = Except.ok () ∧
    routeSigintExitCode = none :=
  c8_startup_shutdown_amended "abc" (by decide)

/-- Claim C10: the route server applies String() before its presence
checks, so for every route tool and every required parameter, supplying
the parameter as the empty string throws the required-error before any
fetch, while omitting the parameter altogether turns it into the literal
string undefined and the upstream GET is issued with param=undefined in
the query string. -/
theorem c10_string_coercion (up : UpstreamResult) :
    routeDispatch up "walking_route" (JsValue.objL
        [("origin", JsValue.str ""), ("destination", JsValue.str "116.5,40.0")]) =
      (RouteOutcome.thrown "Origin and destination are required", []) ∧
    routeDispatch up "walking_route" (JsValue.objL
        [("origin", JsValue.str "116.4,39.9"), ("destination", JsValue.str "")]) =
      (RouteOutcome.thrown "Origin and destination are required", []) ∧
    (routeDispatch up "walking_route" (JsValue.objL
        [("destination", JsValue.str "116.5,40.0")])).2 =
      ["https://restapi.amap.com/v3/direction/walking?origin=undefined&destination=116.5,40.0&key=ae4775b98c50d997cab4bcd6c769bf9b"] ∧
    (routeDispatch up "walking_route" (JsValue.objL
        [("origin", JsValue.str "116.4,39.9")])).2 =
      ["https://restapi.amap.com/v3/direction/walking?origin=116.4,39.9&destination=undefined&key=ae4775b98c50d997cab4bcd6c769bf9b"] ∧
    routeDispatch up "transit_route" (JsValue.objL
        [("origin", JsValue.str ""), ("destination", JsValue.str "116.5,40.0"),
         ("city", JsValue.str "beijing")]) =
      (RouteOutcome.thrown "Origin, destination and city are required", []) ∧
    routeDispatch up "transit_route" (JsValue.objL
        [("origin", JsValue.str "116.4,39.9"), ("destination", JsValue.str ""),
         ("city", JsValue.str "beijing")]) =
      (RouteOutcome.thrown "Origin, destination and city are required", []) ∧
    routeDispatch up "transit_route" (JsValue.objL
        [("origin", JsValue.str "116.4,39.9"), ("destination", JsValue.str "116.5,40.0"),
         ("city", JsValue.str "")]) =
      (RouteOutcome.thrown "Origin, destination and city are required", []) ∧
    (routeDispatch up "transit_route" (JsValue.objL
        [("destination", JsValue.str "116.5,40.0"), ("city", JsValue.str "beijing")])).2 =
      ["https://restapi.amap.com/v3/direction/transit/integrated?origin=undefined&destination=116.5,40.0&city=beijing&key=ae4775b98c50d997cab4bcd6c769bf9b"] ∧
    (routeDispatch up "transit_route" (JsValue.objL
        [("origin", JsValue.str "116.4,39.9"), ("city", JsValue.str "beijing")])).2 =
      ["https://restapi.amap.com/v3/direction/transit/integrated?origin=116.4,39.9&destination=undefined&city=beijing&key=ae4775b98c50d997cab4bcd6c769bf9b"] ∧
    (routeDispatch up "transit_route" (JsValue.objL
        [("origin", JsValue.str "116.4,39.9"), ("destination", JsValue.str "116.5,40.0")])).2 =
      ["https://restapi.amap.com/v3/direction/transit/integrated?origin=116.4,39.9&destination=116.5,40.0&city=undefined&key=ae4775b98c50d997cab4bcd6c769bf9b"] ∧
    routeDispatch up "driving_route" (JsValue.objL
        [("origin", JsValue.str ""), ("destination", JsValue.str "116.5,40.0")]) =
      (RouteOutcome.thrown "Origin and destination are required", []) ∧
    routeDispatch up "driving_route" (JsValue.objL
        [("origin", JsValue.str "116.4,39.9"), ("destination", JsValue.str "")]) =
      (RouteOutcome.thrown "Origin and destination are required", []) ∧
    (routeDispatch up "driving_route" (JsValue.objL
        [("destination", JsValue.str "116.5,40.0")])).2 =
      ["https://restapi.amap.com/v3/direction/driving?origin=undefined&destination=116.5,40.0&key=ae4775b98c50d997cab4bcd6c769bf9b"] ∧
    (routeDispatch up "driving_route" (JsValue.objL
        [("origin", JsValue.str "116.4,39.9")])).2 =
      ["https://restapi.amap.com/v3/direction/driving?origin=116.4,39.9&destination=undefined&key=ae4775b98c50d997cab4bcd6c769bf9b"] ∧
    routeDispatch up "bicycling_route" (JsValue.objL
        [("origin", JsValue.str ""), ("destination", JsValue.str "116.5,40.0")]) =
      (RouteOutcome.thrown "Origin and destination are required", []) ∧
    routeDispatch up "bicycling_route" (JsValue.objL
        [("origin", JsValue.str "116.4,39.9"), ("destination", JsValue.str "")]) =
      (RouteOutcome.thrown "Origin and destination are required", []) ∧
    (routeDispatch up "bicycling_route" (JsValue.objL
        [("destination", JsValue.str "116.5,40.0")])).2 =
      ["https://restapi.amap.com/v4/direction/bicycling?origin=undefined&destination=116.5,40.0&key=ae4775b98c50d997cab4bcd6c769bf9b"] ∧
    (routeDispatch up "bicycling_route" (JsValue.objL
        [("origin", JsValue.str "116.4,39.9")])).2 =
      ["https://restapi.amap.com/v4/direction/bicycling?origin=116.4,39.9&destination=undefined&key=ae4775b98c50d997cab4bcd6c769bf9b"] ∧
    routeDispatch up "distance" (JsValue.objL
        [("origins", JsValue.str ""), ("destination", JsValue.str "116.5,40.0")]) =
      (RouteOutcome.thrown "Origins and destination are required", []) ∧
    routeDispatch up "distance" (JsValue.objL
        [("origins", JsValue.str "116.4,39.9"), ("destination", JsValue.str "")]) =
      (RouteOutcome.thrown "Origins and destination are required", []) ∧
    (routeDispatch up "distance" (JsValue.objL
        [("destination", JsValue.str "116.5,40.0")])).2 =
      ["https://restapi.amap.com/v3/distance?origins=undefined&destination=116.5,40.0&key=ae4775b98c50d997cab4bcd6c769bf9b"] ∧
    (routeDispatch up "distance" (JsValue.objL
        [("origins", JsValue.str "116.4,39.9")])).2 =
      ["https://restapi.amap.com/v3/distance?origins=116.4,39.9&destination=undefined&key=ae4775b98c50d997cab4bcd6c769bf9b"] :=
  ⟨rfl, rfl, rfl, rfl, rfl, rfl, rfl, rfl, rfl, rfl, rfl,
   rfl, rfl, rfl, rfl, rfl, rfl, rfl, rfl, rfl, rfl, rfl⟩

/-- Witness instantiating claim C10 at a concrete upstream. -/
theorem c10_string_coercion_witness :
    routeDispatch (UpstreamResult.err "refused") "walking_route" (JsValue.objL
        [("origin", JsValue.str ""), ("destination", JsValue.str "116.5,40.0")]) =
      (RouteOutcome.thrown "Origin and destination are required", []) ∧
    (routeDispatch (UpstreamResult.err "refused") "walking_route" (JsValue.objL
        [("destination", JsValue.str "116.5,40.0")])).2 =
      ["https://restapi.amap.com/v3/direction/walking?origin=undefined&destination=116.5,40.0&key=ae4775b98c50d997cab4bcd6c769bf9b"] :=
  ⟨(c10_string_coercion (UpstreamResult.err "refused")).1,
   (c10_string_coercion (UpstreamResult.err "refused")).2.2.1⟩

/-- Claim C2 counterexample: with a mocked upstream raising a connection
error, walking_route on the route server does not return a soft
ToolResponse; the error escapes the handler as a thrown exception (the
fetch has no try/catch), after the upstream call was issued. -/
theorem c2_upstream_error_cex :
    routeDispatch (UpstreamResult.err "connection error") "walking_route" (JsValue.objL
        [("origin", JsValue.str "116.4,39.9"), ("destination", JsValue.str "116.5,40.0")]) =
      (RouteOutcome.thrown "connection error",
       ["https://restapi.amap.com/v3/direction/walking?origin=116.4,39.9&destination=116.5,40.0&key=ae4775b98c50d997cab4bcd6c769bf9b"]) ∧
    ∀ r : ToolResponse, RouteOutcome.thrown "connection error" ≠ RouteOutcome.response r :=
  ⟨rfl, fun _ h => RouteOutcome.noConfusion h⟩

/-- Claim C2 as amended: in the coordinate server every valid invocation
whose upstream call fails returns the soft response with text AMap API
error: message and isError true; in the route server, for every tool of
its catalog and every argument bag passing its required guard, the
failure instead escapes the handler as a thrown error after the one
fetch was issued. -/
theorem c2_upstream_error_amended :
    (∀ apiKey msg name args, name ∈ coordToolNames → isValidSearchArgs args = true →
      (coordDispatch apiKey (UpstreamResult.err msg) name args).1 =
        CoordOutcome.response ⟨[⟨"text", "AMap API error: " ++ msg⟩], some true⟩) ∧
    (∀ name ∈ routeToolNames, ∀ args, routeRequiredPresent name args = true → ∀ msg,
      routeDispatch (UpstreamResult.err msg) name args =
        (RouteOutcome.thrown msg, [routeUrlOf name args])) ∧
    (∀ msg, routeDispatch (UpstreamResult.err msg) "walking_route" (JsValue.objL
        [("origin", JsValue.str "116.4,39.9"), ("destination", JsValue.str "116.5,40.0")]) =
      (RouteOutcome.thrown msg,
       ["https://restapi.amap.com/v3/direction/walking?origin=116.4,39.9&destination=116.5,40.0&key=ae4775b98c50d997cab4bcd6c769bf9b"])) := by
  refine ⟨?_, ?_, fun msg => rfl⟩
  · intro apiKey msg name args hname hargs
    simp only [coordToolNames, List.mem_cons, List.not_mem_nil, or_false] at hname
    rcases hname with rfl | rfl | rfl | rfl | rfl | rfl <;>
      simp [coordDispatch, coordBranch, hargs]
  · intro name hname args hok msg
    simp only [routeToolNames, List.mem_cons, List.not_mem_nil, or_false] at hname
    rcases hname with rfl | rfl | rfl | rfl | rfl <;>
      simp_all [routeRequiredPresent, routeDispatch, routeBranch, routeUrlOf]

/-- Witness for the amended claim C2 at id_search and at transit_route,
both with upstream message boom. -/
theorem c2_upstream_error_amended_witness :
    (coordDispatch "k" (UpstreamResult.err "boom") "id_search"
        (JsValue.objL [("id", JsValue.str "B0FFFAEC0B")])).1 =
      CoordOutcome.response ⟨[⟨"text", "AMap API error: boom"⟩], some true⟩ ∧
    routeDispatch (UpstreamResult.err "boom") "transit_route" (JsValue.objL
        [("origin", JsValue.str "116.4,39.9"), ("destination", JsValue.str "116.5,40.0"),
         ("city", JsValue.str "beijing")]) =
      (RouteOutcome.thrown "boom",
       [routeUrlOf "transit_route" (JsValue.objL
         [("origin", JsValue.str "116.4,39.9"), ("destination", JsValue.str "116.5,40.0"),
          ("city", JsValue.str "beijing")])]) :=
  ⟨c2_upstream_error_amended.1 "k" "boom" "id_search"
    (JsValue.objL [("id", JsValue.str "B0FFFAEC0B")]) (by decide) (by decide),
   c2_upstream_error_amended.2.1 "transit_route" (by decide) (JsValue.objL
      [("origin", JsValue.str "116.4,39.9"), ("destination", JsValue.str "116.5,40.0"),
       ("city", JsValue.str "beijing")]) (by decide) "boom"⟩

/-- Claim C3 counterexample: at the very input the claim names, the
coordinate server returns the body pretty-printed with a 2-space indent
(JSON.stringify(data, null, 2)) and with no isError field, so the content
text is not the compact string the claim requires. -/
theorem c3_success_passthrough_cex :
    (coordDispatch "k" (UpstreamResult.ok (JsValue.objL [("status", JsValue.str "1")]))
        "id_search" (JsValue.objL [("id", JsValue.str "B0FFFAEC0B")])).1 =
      CoordOutcome.response ⟨[⟨"text", "\x7b\n  \"status\": \"1\"\n\x7d"⟩], none⟩ ∧
    "\x7b\n  \"status\": \"1\"\n\x7d" ≠ "\x7b\"status\":\"1\"\x7d" :=
  ⟨rfl, by decide⟩

/-- Claim C3 as amended: on upstream success every valid coordinate-server
invocation returns the body serialized by JSON.stringify(body, null, 2)
with no isError field, and every route-server invocation passing its
required guard returns the compact JSON.stringify(body), likewise with no
isError field; neither server reshapes the body. -/
theorem c3_success_passthrough_amended :
    (∀ apiKey body name args, name ∈ coordToolNames → isValidSearchArgs args = true →
      (coordDispatch apiKey (UpstreamResult.ok body) name args).1 =
        CoordOutcome.response ⟨[⟨"text", jsonStringifyPretty body⟩], none⟩) ∧
    (∀ name ∈ routeToolNames, ∀ args, routeRequiredPresent name args = true → ∀ body,
      routeDispatch (UpstreamResult.ok body) name args =
        (RouteOutcome.response ⟨[⟨"text", jsonStringify body⟩], none⟩,
         [routeUrlOf name args])) ∧
    (∀ body, routeDispatch (UpstreamResult.ok body) "walking_route" (JsValue.objL
        [("origin", JsValue.str "116.4,39.9"), ("destination", JsValue.str "116.5,40.0")]) =
      (RouteOutcome.response ⟨[⟨"text", jsonStringify body⟩], none⟩,
       ["https://restapi.amap.com/v3/direction/walking?origin=116.4,39.9&destination=116.5,40.0&key=ae4775b98c50d997cab4bcd6c769bf9b"])) := by
  refine ⟨?_, ?_, fun body => rfl⟩
  · intro apiKey body name args hname hargs
    simp only [coordToolNames, List.mem_cons, List.not_mem_nil, or_false] at hname
    rcases hname with rfl | rfl | rfl | rfl | rfl | rfl <;>
      simp [coordDispatch, coordBranch, hargs]
  · intro name hname args hok body
    simp only [routeToolNames, List.mem_cons, List.not_mem_nil, or_false] at hname
    rcases hname with rfl | rfl | rfl | rfl | rfl <;>
      simp_all [routeRequiredPresent, routeDispatch, routeBranch, routeUrlOf]

/-- Witness for the amended claim C3 at the id_search example and at
distance on the route server, both with mocked body of status 1. -/
theorem c3_success_passthrough_amended_witness :
    (coordDispatch "k" (UpstreamResult.ok (JsValue.objL [("status", JsValue.str "1")]))
        "id_search" (JsValue.objL [("id", JsValue.str "B0FFFAEC0B")])).1 =
      CoordOutcome.response
        ⟨[⟨"text", jsonStringifyPretty (JsValue.objL [("status", JsValue.str "1")])⟩], none⟩ ∧
    routeDispatch (UpstreamResult.ok (JsValue.objL [("status", JsValue.str "1")]))
        "distance" (JsValue.objL
          [("origins", JsValue.str "116.4,39.9"), ("destination", JsValue.str "116.5,40.0")]) =
      (RouteOutcome.response
        ⟨[⟨"text", jsonStringify (JsValue.objL [("status", JsValue.str "1")])⟩], none⟩,
       [routeUrlOf "distance" (JsValue.objL
          [("origins", JsValue.str "116.4,39.9"), ("destination", JsValue.str "116.5,40.0")])]) :=
  ⟨c3_success_passthrough_amended.1 "k" (JsValue.objL [("status", JsValue.str "1")])
    "id_search" (JsValue.objL [("id", JsValue.str "B0FFFAEC0B")]) (by decide) (by decide),
   c3_success_passthrough_amended.2.1 "distance" (by decide) (JsValue.objL
      [("origins", JsValue.str "116.4,39.9"), ("destination", JsValue.str "116.5,40.0")])
    (by decide) (JsValue.objL [("status", JsValue.str "1")])⟩

/-- Claim C4 counterexample: a boolean origin supplied to walking_route
is coerced by String() to the string true and the upstream GET is issued
with origin=true — no WrongType failure; and in the coordinate server a
wrong-kinded required parameter at a later discriminator also passes:
keyword_search with a string locations and a numeric keywords validates
and its upstream request is issued. -/
theorem c4_wrong_type_cex :
    (routeDispatch (UpstreamResult.ok (JsValue.objL [])) "walking_route" (JsValue.objL
        [("origin", JsValue.bool true), ("destination", JsValue.str "116.5,40.0")])).2 =
      ["https://restapi.amap.com/v3/direction/walking?origin=true&destination=116.5,40.0&key=ae4775b98c50d997cab4bcd6c769bf9b"] ∧
    isValidSearchArgs (JsValue.objL
        [("locations", JsValue.str "116.4,39.9"), ("keywords", JsValue.num 5)]) = true ∧
    ((coordDispatch "k" (UpstreamResult.ok (JsValue.objL [])) "keyword_search" (JsValue.objL
        [("locations", JsValue.str "116.4,39.9"), ("keywords", JsValue.num 5)])).2.map
      fun q => q.url) = ["https://restapi.amap.com/v3/place/text"] :=
  ⟨rfl, rfl, rfl⟩

/-- Claim C4 as amended: the coordinate server rejects a wrong-kinded
value only when it sits at the first present discriminator key (then
with the single InvalidParams error and no network request, for every
tool of its catalog); the route server coerces every argument with
String(), so wrong-kinded values pass on through to the network. -/
theorem c4_wrong_type_amended (k : String) (v : JsValue) (t : String)
    (hk : k ∈ coordDiscriminators) (hv : typeofJs v ≠ "string") (ht : t ∈ coordToolNames) :
    isValidSearchArgs (JsValue.objL [(k, v)]) = false ∧
    (∀ apiKey up, coordDispatch apiKey up t (JsValue.objL [(k, v)]) =
      (CoordOutcome.invalidParams "Invalid arguments", [])) ∧
    (∀ up, (routeDispatch up "walking_route" (JsValue.objL
        [("origin", JsValue.bool true), ("destination", JsValue.str "116.5,40.0")])).2 =
      ["https://restapi.amap.com/v3/direction/walking?origin=true&destination=116.5,40.0&key=ae4775b98c50d997cab4bcd6c769bf9b"]) := by
  have hval : isValidSearchArgs (JsValue.objL [(k, v)]) = false := by
    simp only [coordDiscriminators, List.mem_cons, List.not_mem_nil, or_false] at hk
    rcases hk with rfl | rfl | rfl | rfl | rfl <;> cases v <;>
      simp_all [isValidSearchArgs, hasProp, getProp, typeofJs, isUndefinedJs,
        JsValue.objL, jsPropsOfList, JsProps.get]
  refine ⟨hval, ?_, fun up => rfl⟩
  intro apiKey up
  simp only [coordToolNames, List.mem_cons, List.not_mem_nil, or_false] at ht
  rcases ht with rfl | rfl | rfl | rfl | rfl | rfl <;> simp [coordDispatch, hval]

/-- Witness for the amended claim C4: a boolean keywords value is
rejected by the coordinate server before any network call. -/
theorem c4_wrong_type_amended_witness :
    isValidSearchArgs (JsValue.objL [("keywords", JsValue.bool true)]) = false ∧
    coordDispatch "k" (UpstreamResult.ok (JsValue.objL [])) "keyword_search"
        (JsValue.objL [("keywords", JsValue.bool true)]) =
      (CoordOutcome.invalidParams "Invalid arguments", []) :=
  ⟨(c4_wrong_type_amended "keywords" (JsValue.bool true) "keyword_search"
      (by decide) (by decide) (by decide)).1,
   (c4_wrong_type_amended "keywords" (JsValue.bool true) "keyword_search"
      (by decide) (by decide) (by decide)).2.1 "k" (UpstreamResult.ok (JsValue.objL []))⟩

/-- Claim C5: an invocation whose tool name is in neither catalog is
answered by a thrown protocol-level error from the default switch case of
each server (McpError MethodNotFound with Unknown tool: name in the
coordinate server, Error Unknown tool in the route server), not by a soft
ToolResponse, and no upstream request is issued. -/
theorem c5_unknown_tool (name : String) (args : JsValue) (apiKey : String)
    (up : UpstreamResult) (hc : name ∉ coordToolNames) (hr : name ∉ routeToolNames) :
    coordDispatch apiKey up name args =
      (CoordOutcome.methodNotFound ("Unknown tool: " ++ name), []) ∧
    routeDispatch up name args = (RouteOutcome.thrown "Unknown tool", []) := by
  simp only [coordToolNames, List.mem_cons, List.not_mem_nil, or_false] at hc
  push_neg at hc
  obtain ⟨h1, h2, h3, h4, h5, h6⟩ := hc
  simp only [routeToolNames, List.mem_cons, List.not_mem_nil, or_false] at hr
  push_neg at hr
  obtain ⟨g1, g2, g3, g4, g5⟩ := hr
  exact ⟨by simp [coordDispatch, h1, h2, h3, h4, h5, h6],
         by simp [routeDispatch, g1, g2, g3, g4, g5]⟩

/-- Witness for claim C5 at the unknown tool name foo. -/
theorem c5_unknown_tool_witness :
    coordDispatch "k" (UpstreamResult.ok (JsValue.objL [])) "foo" (JsValue.objL []) =
      (CoordOutcome.methodNotFound ("Unknown tool: " ++ "foo"), []) ∧
    routeDispatch (UpstreamResult.ok (JsValue.objL [])) "foo" (JsValue.objL []) =
      (RouteOutcome.thrown "Unknown tool", []) :=
  c5_unknown_tool "foo" (JsValue.objL []) "k" (UpstreamResult.ok (JsValue.objL []))
    (by decide) (by decide)

/-- Claim C9: the coordinate server applies the one shared validator
identically in all six branches (a branch throws InvalidParams exactly
when isValidSearchArgs rejects, whatever the tool), acceptance depends
only on the first present discriminator key in the fixed order locations,
keywords, location, polygon, id (the two concrete bags witness the
order), the catalog assigns each tool the single required parameter
coordRequiredKey returns, and for every tool and every string-valued
discriminator key other than its own, the bag holding just that key
passes validation and exactly one upstream request is issued whose params
lack the required parameter of the invoked tool. -/
theorem c9_shared_validator :
    coordDiscriminators = ["locations", "keywords", "location", "polygon", "id"] ∧
    ((coordTools.map fun d => (d.name, d.required)) =
      coordToolNames.map fun t => (t, [coordRequiredKey t])) ∧
    isValidSearchArgs (JsValue.objL
      [("keywords", JsValue.str "a"), ("locations", JsValue.num 5)]) = false ∧
    isValidSearchArgs (JsValue.objL
      [("keywords", JsValue.num 5), ("locations", JsValue.str "a")]) = true ∧
    (∀ t ∈ coordToolNames, ∀ args apiKey up,
      ((coordDispatch apiKey up t args).1 = CoordOutcome.invalidParams "Invalid arguments" ↔
        isValidSearchArgs args = false)) ∧
    (∀ t ∈ coordToolNames, ∀ k ∈ coordDiscriminators, k ≠ coordRequiredKey t →
      ∀ apiKey up,
      isValidSearchArgs (JsValue.objL [(k, JsValue.str "x")]) = true ∧
      ((coordDispatch apiKey up t (JsValue.objL [(k, JsValue.str "x")])).2.map
        fun q => (q.params.lookup (coordRequiredKey t)).isNone) = [true]) := by
  refine ⟨rfl, rfl, rfl, rfl, ?_, ?_⟩
  · intro t ht args apiKey up
    simp only [coordToolNames, List.mem_cons, List.not_mem_nil, or_false] at ht
    rcases ht with rfl | rfl | rfl | rfl | rfl | rfl <;>
      cases h : isValidSearchArgs args <;> cases up <;>
        simp [coordDispatch, coordBranch, h]
  · intro t ht k hk hne apiKey up
    simp only [coordToolNames, List.mem_cons, List.not_mem_nil, or_false] at ht
    simp only [coordDiscriminators, List.mem_cons, List.not_mem_nil, or_false] at hk
    rcases ht with rfl | rfl | rfl | rfl | rfl | rfl <;>
      rcases hk with rfl | rfl | rfl | rfl | rfl <;>
        first
          | exact absurd (by decide) hne
          | exact ⟨by decide, rfl⟩

/-- Witness for claim C9: coordinate_convert invoked with only a
string-valued id passes validation and issues its upstream request
without locations. -/
theorem c9_shared_validator_witness :
    isValidSearchArgs (JsValue.objL [("id", JsValue.str "x")]) = true ∧
    ((coordDispatch "k" (UpstreamResult.ok (JsValue.objL [])) "coordinate_convert"
        (JsValue.objL [("id", JsValue.str "x")])).2.map
      fun q => (q.params.lookup (coordRequiredKey "coordinate_convert")).isNone) = [true] :=
  c9_shared_validator.2.2.2.2.2 "coordinate_convert" (by decide) "id" (by decide)
    (by decide) "k" (UpstreamResult.ok (JsValue.objL []))
